import Mathlib

/-!
# Verification of `spawn-ptrace`'s `spawn_ptrace`

A shallow embedding of `src/lib.rs` of the `spawn-ptrace` crate.  The
single operation is

```rust
fn spawn_ptrace(&mut self) -> Result<Child> {
    let child = unsafe {
        self.pre_exec(|| {
            ptrace::traceme().map_err(|e| match e {
                nix::Error::Sys(e) => io::Error::from_raw_os_error(e as i32),
                _ => io::Error::new(io::ErrorKind::Other, "unknown PTRACE_TRACEME error"),
            })
        })
        .spawn()?
    };
    match waitpid(Some(Pid::from_raw(child.id() as i32)), None) {
        Ok(WaitStatus::Stopped(_, Signal::SIGTRAP)) => Ok(child),
        _ => Err(io::Error::new(io::ErrorKind::Other, "Child state not correct")),
    }
}
```

The OS-facing primitives (`ptrace::traceme` in the child, the `exec`
image replacement, pid assignment, `waitpid`) are modelled as an oracle
environment `Env`.  `spawn_ptrace` is instrumented: besides its result it
returns the list of process-affecting actions it performed (`Event`) and
the `Command` it leaves behind (`pre_exec` takes `&mut self` and appends a
hook to the builder's hook list).
-/

namespace SpawnPtrace

/-- The Unix signals, as in `nix::sys::signal::Signal`. -/
inductive Signal
  | SIGHUP | SIGINT | SIGQUIT | SIGILL | SIGTRAP | SIGABRT | SIGBUS
  | SIGFPE | SIGKILL | SIGUSR1 | SIGSEGV | SIGUSR2 | SIGPIPE | SIGALRM
  | SIGTERM | SIGSTKFLT | SIGCHLD | SIGCONT | SIGSTOP | SIGTSTP
  | SIGTTIN | SIGTTOU | SIGURG | SIGXCPU | SIGXFSZ | SIGVTALRM
  | SIGPROF | SIGWINCH | SIGIO | SIGPWR | SIGSYS
  deriving DecidableEq, Repr

/-- `nix::sys::wait::WaitStatus`.  Pids are `i32` (`nix::unistd::Pid`),
modelled as `Int`. -/
inductive WaitStatus
  | Exited (pid : Int) (code : Int)
  | Signaled (pid : Int) (sig : Signal) (coreDumped : Bool)
  | Stopped (pid : Int) (sig : Signal)
  | PtraceEvent (pid : Int) (sig : Signal) (event : Int)
  | PtraceSyscall (pid : Int)
  | Continued (pid : Int)
  | StillAlive
  deriving DecidableEq, Repr

/-- The pid a `WaitStatus` reports about, when it carries one. -/
def WaitStatus.pidOf : WaitStatus → Option Int
  | .Exited p _ => some p
  | .Signaled p _ _ => some p
  | .Stopped p _ => some p
  | .PtraceEvent p _ _ => some p
  | .PtraceSyscall p => some p
  | .Continued p => some p
  | .StillAlive => none

/-- `nix::Error` (nix 0.x): a recognized OS errno or one of the non-OS
failure kinds. -/
inductive NixError
  | Sys (errno : Int)
  | InvalidPath
  | InvalidUtf8
  | UnsupportedOperation
  deriving DecidableEq, Repr

/-- `std::io::Error`, restricted to the two constructions the source
uses: `io::Error::from_raw_os_error(code)` and
`io::Error::new(io::ErrorKind::Other, msg)`. -/
inductive IoError
  | fromRawOsError (code : Int)
  | newOther (msg : String)
  deriving DecidableEq, Repr

/-- `io::Error::raw_os_error()`: `Some(code)` for an error built from a
raw OS error code, `None` for one built from `ErrorKind::Other` and a
message. -/
def IoError.rawOsError : IoError → Option Int
  | .fromRawOsError c => some c
  | .newOther _ => none

/-- The `map_err` closure inside the pre-exec hook: a recognized
`nix::Error::Sys(errno)` becomes `io::Error::from_raw_os_error(errno)`,
anything else the generic "unknown PTRACE_TRACEME error". -/
def tracemeErrMap : NixError → IoError
  | .Sys e => .fromRawOsError e
  | _ => .newOther "unknown PTRACE_TRACEME error"

/-- A hook attached with `pre_exec`.  The only hook this crate attaches
is the `ptrace::traceme()` one. -/
inductive Hook
  | traceme
  deriving DecidableEq, Repr

/-- `std::process::Command`, reduced to the part `spawn_ptrace` touches:
the list of attached `pre_exec` hooks.  (Program path, arguments,
environment and streams are opaque to the crate.) -/
structure Command where
  hooks : List Hook
  deriving DecidableEq, Repr

/-- `std::process::Child`, reduced to the part the crate uses:
`Child::id()`, a `u32`. -/
structure Child where
  id : Nat
  deriving DecidableEq, Repr

/-- The oracle environment standing for the OS primitives one call to
`spawn_ptrace` interacts with. -/
structure Env where
  /-- Result of `ptrace::traceme()` when a traceme hook runs in the
  child. -/
  tracemeResult : Except NixError Unit
  /-- Result of replacing the child's image (`exec`), after all hooks
  succeeded; an `io::Error` surfaced through `spawn()`. -/
  execResult : Except IoError Unit
  /-- The OS-assigned pid of the child when `spawn()` succeeds;
  `Child::id()` returns it as a `u32`. -/
  childPid : Nat
  /-- `waitpid(target, flags)`: given the targeted pid (`Some(pid)` here)
  and the wait flags (`None` here), the status report or a
  `nix::Error`. -/
  waitpid : Option Int → Option Nat → Except NixError WaitStatus

/-- The `u32` to `i32` cast in `Pid::from_raw(child.id() as i32)`. -/
def i32OfU32 (n : Nat) : Int :=
  if n % 2 ^ 32 < 2 ^ 31 then (n % 2 ^ 32 : Nat) else (n % 2 ^ 32 : Nat) - 2 ^ 32

/-- Run the attached `pre_exec` hooks in order in the child; the first
failure aborts process creation with that hook's `io::Error`.  The
traceme hook's body is `ptrace::traceme().map_err(tracemeErrMap)`. -/
def runHooks (env : Env) : List Hook → Except IoError Unit
  | [] => .ok ()
  | .traceme :: rest =>
    match env.tracemeResult.mapError tracemeErrMap with
    | .error e => .error e
    | .ok () => runHooks env rest

/-- `Command::spawn()`: run the hooks in the child, then replace the
image; on success the parent gets a `Child` whose `id()` is the OS pid
as a `u32`. -/
def Command.spawn (cmd : Command) (env : Env) : Except IoError Child :=
  match runHooks env cmd.hooks with
  | .error e => .error e
  | .ok () =>
    match env.execResult with
    | .error e => .error e
    | .ok () => .ok ⟨env.childPid % 2 ^ 32⟩

/-- `self.pre_exec(traceme hook)`: appends the hook to the builder's
hook list (the receiver is `&mut self`, so the list persists). -/
def attachTraceme (cmd : Command) : Command :=
  { cmd with hooks := cmd.hooks ++ [Hook.traceme] }

/-- A process-affecting action `spawn_ptrace` could perform on the child,
recorded for frame reasoning.  The source only ever performs the wait. -/
inductive Event
  | waitCall (target : Option Int) (flags : Option Nat)
  | kill (pid : Int) (sig : Signal)
  | reap (pid : Int)
  deriving DecidableEq, Repr

instance {ε α : Type} [DecidableEq ε] [DecidableEq α] : DecidableEq (Except ε α) :=
  fun x y =>
    match x, y with
    | .ok a, .ok b => if h : a = b then .isTrue (by rw [h]) else .isFalse (by simp [h])
    | .error a, .error b => if h : a = b then .isTrue (by rw [h]) else .isFalse (by simp [h])
    | .ok _, .error _ => .isFalse (by simp)
    | .error _, .ok _ => .isFalse (by simp)

/-- What one call to `spawn_ptrace` hands back: the `io::Result<Child>`,
the recorded process-affecting actions, and the `Command` as the caller
sees it afterwards (it was only mutably borrowed). -/
structure SpawnOutcome where
  result : Except IoError Child
  events : List Event
  cmd : Command
  deriving DecidableEq, Repr

/-- `spawn_ptrace`, translated clause for clause from the source:
attach the traceme hook, `spawn()?`, then a single
`waitpid(Some(child.id() as i32), None)` matched against
`Ok(Stopped(_, SIGTRAP))`, every other outcome becoming the generic
"Child state not correct" error. -/
def spawn_ptrace (cmd : Command) (env : Env) : SpawnOutcome :=
  match (attachTraceme cmd).spawn env with
  | .error e => ⟨.error e, [], attachTraceme cmd⟩
  | .ok child =>
    match env.waitpid (some (i32OfU32 child.id)) none with
    | .ok (.Stopped _ .SIGTRAP) =>
      ⟨.ok child, [.waitCall (some (i32OfU32 child.id)) none], attachTraceme cmd⟩
    | _ =>
      ⟨.error (.newOther "Child state not correct"),
        [.waitCall (some (i32OfU32 child.id)) none], attachTraceme cmd⟩

/-- The `waitpid` contract for a targeted wait: a status successfully
reported by `waitpid(Some(p), _)` is a status of process `p`. -/
def PidFaithful (env : Env) : Prop :=
  ∀ p f s, env.waitpid (some p) f = .ok s → s.pidOf = some p

/-- The test the source's final `match` performs on the `waitpid`
outcome: did the wait succeed and report `Stopped(_, SIGTRAP)`? -/
def isTrapStop : Except NixError WaitStatus → Bool
  | .ok (.Stopped _ .SIGTRAP) => true
  | _ => false

theorem isTrapStop_iff (r : Except NixError WaitStatus) :
    isTrapStop r = true ↔ ∃ p, r = .ok (.Stopped p .SIGTRAP) := by
  cases r with
  | error e => simp [isTrapStop]
  | ok s =>
    cases s with
    | Stopped p sig => cases sig <;> simp [isTrapStop]
    | _ => simp [isTrapStop]

/-- `spawn_ptrace` rewritten with the pattern test made explicit; every
later proof goes through this form. -/
theorem spawn_ptrace_eq (cmd : Command) (env : Env) :
    spawn_ptrace cmd env =
      match (attachTraceme cmd).spawn env with
      | .error e => ⟨.error e, [], attachTraceme cmd⟩
      | .ok c =>
        if isTrapStop (env.waitpid (some (i32OfU32 c.id)) none)
        then ⟨.ok c, [.waitCall (some (i32OfU32 c.id)) none], attachTraceme cmd⟩
        else ⟨.error (.newOther "Child state not correct"),
              [.waitCall (some (i32OfU32 c.id)) none], attachTraceme cmd⟩ := by
  unfold spawn_ptrace
  cases (attachTraceme cmd).spawn env with
  | error e => rfl
  | ok c =>
    dsimp only
    cases hw : env.waitpid (some (i32OfU32 c.id)) none with
    | error e => simp [isTrapStop]
    | ok s =>
      cases s with
      | Stopped p sig => cases sig <;> simp [isTrapStop]
      | _ => simp [isTrapStop]

/-- Is a recorded event a status-wait call? -/
def Event.isWait : Event → Bool
  | .waitCall _ _ => true
  | _ => false

theorem spawn_ptrace_of_spawn_error (cmd : Command) (env : Env) (e : IoError)
    (h : (attachTraceme cmd).spawn env = .error e) :
    spawn_ptrace cmd env = ⟨.error e, [], attachTraceme cmd⟩ := by
  rw [spawn_ptrace_eq, h]

theorem spawn_ptrace_of_trap (cmd : Command) (env : Env) (c : Child)
    (h : (attachTraceme cmd).spawn env = .ok c)
    (hw : isTrapStop (env.waitpid (some (i32OfU32 c.id)) none) = true) :
    spawn_ptrace cmd env =
      ⟨.ok c, [.waitCall (some (i32OfU32 c.id)) none], attachTraceme cmd⟩ := by
  rw [spawn_ptrace_eq, h]
  simp [hw]

theorem spawn_ptrace_of_noTrap (cmd : Command) (env : Env) (c : Child)
    (h : (attachTraceme cmd).spawn env = .ok c)
    (hw : isTrapStop (env.waitpid (some (i32OfU32 c.id)) none) = false) :
    spawn_ptrace cmd env =
      ⟨.error (.newOther "Child state not correct"),
        [.waitCall (some (i32OfU32 c.id)) none], attachTraceme cmd⟩ := by
  rw [spawn_ptrace_eq, h]
  simp [hw]

theorem isTrapStop_ok_false (s : WaitStatus)
    (hns : ∀ p, s ≠ WaitStatus.Stopped p Signal.SIGTRAP) :
    isTrapStop (.ok s) = false := by
  cases h : isTrapStop (.ok s) with
  | false => rfl
  | true =>
    obtain ⟨p, hp⟩ := (isTrapStop_iff _).mp h
    injection hp with hp'
    exact absurd hp' (hns p)

theorem runHooks_error_of_traceme_error (env : Env) (e : NixError)
    (he : env.tracemeResult = .error e) :
    ∀ l : List Hook, l ≠ [] → runHooks env l = .error (tracemeErrMap e) := by
  intro l hl
  cases l with
  | nil => exact absurd rfl hl
  | cons h rest =>
    cases h
    unfold runHooks
    rw [he]
    rfl

theorem spawn_error_of_traceme_error (cmd : Command) (env : Env) (e : NixError)
    (he : env.tracemeResult = .error e) :
    (attachTraceme cmd).spawn env = .error (tracemeErrMap e) := by
  unfold Command.spawn
  rw [runHooks_error_of_traceme_error env e he _ (by simp [attachTraceme])]

/-! ## Concrete environments used by witnesses and counterexamples -/

/-- A benign environment: traceme and exec succeed, the child gets pid 7,
and a targeted wait reports a SIGTRAP stop of the targeted pid. -/
def envTrapAll : Env where
  tracemeResult := .ok ()
  execResult := .ok ()
  childPid := 7
  waitpid := fun t _ =>
    match t with
    | some p => .ok (.Stopped p .SIGTRAP)
    | none => .error (.Sys 10)

/-- traceme fails with errno 1 (EPERM) in the child. -/
def envTracemeEperm : Env where
  tracemeResult := .error (.Sys 1)
  execResult := .ok ()
  childPid := 7
  waitpid := fun _ _ => .error (.Sys 10)

/-- The image replacement fails with errno 2 (ENOENT): the executable
path does not exist. -/
def envExecEnoent : Env where
  tracemeResult := .ok ()
  execResult := .error (.fromRawOsError 2)
  childPid := 7
  waitpid := fun _ _ => .error (.Sys 10)

/-- The child exits immediately; the wait reports Exited(7, 0) instead of
a stop. -/
def envChildExited : Env where
  tracemeResult := .ok ()
  execResult := .ok ()
  childPid := 7
  waitpid := fun _ _ => .ok (.Exited 7 0)

/-- The wait itself fails with errno 10 (ECHILD). -/
def envWaitFail : Env where
  tracemeResult := .ok ()
  execResult := .ok ()
  childPid := 7
  waitpid := fun _ _ => .error (.Sys 10)

/-! ## Claim theorems -/

/-- C1: under the waitpid contract that a wait targeted at a pid only
reports statuses of that pid, spawn_ptrace returns a Child handle exactly
when process creation succeeded and the single targeted wait reported
stopped-by-SIGTRAP for that exact pid; in every other case the result is
an error, never a handle. -/
theorem spawn_ptrace_handle_iff_sigtrap_stop (cmd : Command) (env : Env)
    (hf : PidFaithful env) (c : Child) :
    (spawn_ptrace cmd env).result = .ok c ↔
      ((attachTraceme cmd).spawn env = .ok c ∧
        env.waitpid (some (i32OfU32 c.id)) none =
          .ok (.Stopped (i32OfU32 c.id) .SIGTRAP)) := by
  constructor
  · intro h
    cases hs : (attachTraceme cmd).spawn env with
    | error e =>
      rw [spawn_ptrace_of_spawn_error cmd env e hs] at h
      exact absurd h (by simp)
    | ok c0 =>
      cases hts : isTrapStop (env.waitpid (some (i32OfU32 c0.id)) none) with
      | false =>
        rw [spawn_ptrace_of_noTrap cmd env c0 hs hts] at h
        exact absurd h (by simp)
      | true =>
        rw [spawn_ptrace_of_trap cmd env c0 hs hts] at h
        have hc : c0 = c := by simpa using h
        subst hc
        obtain ⟨p, hp⟩ := (isTrapStop_iff _).mp hts
        have hpid := hf (i32OfU32 c0.id) none _ hp
        simp [WaitStatus.pidOf] at hpid
        subst hpid
        exact ⟨rfl, hp⟩
  · rintro ⟨hs, hw⟩
    have hts : isTrapStop (env.waitpid (some (i32OfU32 c.id)) none) = true := by
      rw [hw]; rfl
    rw [spawn_ptrace_of_trap cmd env c hs hts]

/-- Witness for C1 at a concrete pid-faithful environment. -/
theorem spawn_ptrace_handle_iff_sigtrap_stop_witness :
    (spawn_ptrace ⟨[]⟩ envTrapAll).result = .ok ⟨7⟩ ↔
      ((attachTraceme ⟨[]⟩).spawn envTrapAll = .ok ⟨7⟩ ∧
        envTrapAll.waitpid (some (i32OfU32 (Child.mk 7).id)) none =
          .ok (.Stopped (i32OfU32 (Child.mk 7).id) .SIGTRAP)) :=
  spawn_ptrace_handle_iff_sigtrap_stop ⟨[]⟩ envTrapAll
    (by
      intro p f s h
      injection h with h'
      subst h'
      rfl)
    ⟨7⟩

/-- C2: a traceme failure in the pre-launch hook surfaces through the
process-creation error channel; a recognized Sys errno is carried as the
raw OS error code, any other nix error kind becomes the generic
"unknown PTRACE_TRACEME error" with no OS code. -/
theorem spawn_ptrace_traceme_failure_surfaced (cmd : Command) (env : Env)
    (e : NixError) (he : env.tracemeResult = .error e) :
    (spawn_ptrace cmd env).result = .error (tracemeErrMap e) ∧
      (∀ n, e = .Sys n →
        tracemeErrMap e = .fromRawOsError n ∧ (tracemeErrMap e).rawOsError = some n) ∧
      ((∀ n, e ≠ .Sys n) →
        tracemeErrMap e = .newOther "unknown PTRACE_TRACEME error" ∧
          (tracemeErrMap e).rawOsError = none) := by
  refine ⟨?_, ?_, ?_⟩
  · rw [spawn_ptrace_of_spawn_error cmd env _ (spawn_error_of_traceme_error cmd env e he)]
  · rintro n rfl
    exact ⟨rfl, rfl⟩
  · intro hn
    cases e with
    | Sys n => exact absurd rfl (hn n)
    | InvalidPath => exact ⟨rfl, rfl⟩
    | InvalidUtf8 => exact ⟨rfl, rfl⟩
    | UnsupportedOperation => exact ⟨rfl, rfl⟩

/-- Witness for C2 at a concrete environment where traceme fails with
errno 1 (EPERM). -/
theorem spawn_ptrace_traceme_failure_surfaced_witness :
    (spawn_ptrace ⟨[]⟩ envTracemeEperm).result = .error (tracemeErrMap (.Sys 1)) ∧
      (∀ n, NixError.Sys 1 = .Sys n →
        tracemeErrMap (.Sys 1) = .fromRawOsError n ∧
          (tracemeErrMap (.Sys 1)).rawOsError = some n) ∧
      ((∀ n, NixError.Sys 1 ≠ .Sys n) →
        tracemeErrMap (.Sys 1) = .newOther "unknown PTRACE_TRACEME error" ∧
          (tracemeErrMap (.Sys 1)).rawOsError = none) :=
  spawn_ptrace_traceme_failure_surfaced ⟨[]⟩ envTracemeEperm (.Sys 1) rfl

/-- C3: one call performs at most one status wait: exactly one when
process creation succeeds and zero when it fails, whatever the wait
returns. -/
theorem spawn_ptrace_exactly_one_wait (cmd : Command) (env : Env) :
    ((spawn_ptrace cmd env).events.countP fun ev => Event.isWait ev) =
      (match (attachTraceme cmd).spawn env with
       | .ok _ => 1
       | .error _ => 0) ∧
    (spawn_ptrace cmd env).events.length ≤ 1 := by
  rw [spawn_ptrace_eq]
  cases (attachTraceme cmd).spawn env with
  | error e => exact ⟨rfl, by simp⟩
  | ok c =>
    dsimp only
    cases isTrapStop (env.waitpid (some (i32OfU32 c.id)) none) <;>
      simp [Event.isWait]

/-- C4: when process creation fails, spawn_ptrace returns that launch
error unchanged and performs no wait at all. -/
theorem spawn_ptrace_no_wait_on_spawn_failure (cmd : Command) (env : Env)
    (e : IoError) (h : (attachTraceme cmd).spawn env = .error e) :
    (spawn_ptrace cmd env).result = .error e ∧
      (spawn_ptrace cmd env).events = [] := by
  rw [spawn_ptrace_of_spawn_error cmd env e h]
  exact ⟨rfl, rfl⟩

/-- Witness for C4 at a concrete environment where exec fails with
errno 2 (ENOENT). -/
theorem spawn_ptrace_no_wait_on_spawn_failure_witness :
    (spawn_ptrace ⟨[]⟩ envExecEnoent).result = .error (.fromRawOsError 2) ∧
      (spawn_ptrace ⟨[]⟩ envExecEnoent).events = [] :=
  spawn_ptrace_no_wait_on_spawn_failure ⟨[]⟩ envExecEnoent (.fromRawOsError 2) rfl

/-- C5: when the wait succeeds with any status other than
stopped-by-SIGTRAP, spawn_ptrace returns the generic error
"Child state not correct", which carries no OS error code. -/
theorem spawn_ptrace_wrong_status_generic_error (cmd : Command) (env : Env)
    (c : Child) (s : WaitStatus)
    (hs : (attachTraceme cmd).spawn env = .ok c)
    (hw : env.waitpid (some (i32OfU32 c.id)) none = .ok s)
    (hns : ∀ p, s ≠ WaitStatus.Stopped p Signal.SIGTRAP) :
    (spawn_ptrace cmd env).result = .error (.newOther "Child state not correct") ∧
      ∀ err, (spawn_ptrace cmd env).result = .error err → err.rawOsError = none := by
  have hts : isTrapStop (env.waitpid (some (i32OfU32 c.id)) none) = false := by
    rw [hw]
    exact isTrapStop_ok_false s hns
  rw [spawn_ptrace_of_noTrap cmd env c hs hts]
  refine ⟨rfl, ?_⟩
  intro err herr
  injection herr with h
  subst h
  rfl

/-- Witness for C5 at a concrete environment where the wait reports
Exited(7, 0). -/
theorem spawn_ptrace_wrong_status_generic_error_witness :
    (spawn_ptrace ⟨[]⟩ envChildExited).result =
        .error (.newOther "Child state not correct") ∧
      ∀ err, (spawn_ptrace ⟨[]⟩ envChildExited).result = .error err →
        err.rawOsError = none :=
  spawn_ptrace_wrong_status_generic_error ⟨[]⟩ envChildExited ⟨7⟩ (.Exited 7 0)
    rfl rfl (fun p h => WaitStatus.noConfusion h)

/-- C6 counterexample: with process creation succeeding and the wait
itself failing with errno 10 (ECHILD), spawn_ptrace does not propagate an
error carrying that OS code; it returns the generic code-less
"Child state not correct" error. -/
theorem spawn_ptrace_wait_failure_drops_errno_cex :
    (spawn_ptrace ⟨[]⟩ envWaitFail).result =
        .error (.newOther "Child state not correct") ∧
      (spawn_ptrace ⟨[]⟩ envWaitFail).result ≠ .error (.fromRawOsError 10) ∧
      (IoError.newOther "Child state not correct").rawOsError = none := by
  decide

/-- C6 amended: when the wait primitive itself fails (with any nix
error), spawn_ptrace returns the generic "Child state not correct" error
carrying no OS error code; the wait's errno is not propagated. -/
theorem spawn_ptrace_wait_failure_generic_error (cmd : Command) (env : Env)
    (c : Child) (e : NixError)
    (hs : (attachTraceme cmd).spawn env = .ok c)
    (hw : env.waitpid (some (i32OfU32 c.id)) none = .error e) :
    (spawn_ptrace cmd env).result = .error (.newOther "Child state not correct") ∧
      ∀ err, (spawn_ptrace cmd env).result = .error err → err.rawOsError = none := by
  have hts : isTrapStop (env.waitpid (some (i32OfU32 c.id)) none) = false := by
    rw [hw]; rfl
  rw [spawn_ptrace_of_noTrap cmd env c hs hts]
  refine ⟨rfl, ?_⟩
  intro err herr
  injection herr with h
  subst h
  rfl

/-- Witness for the amended C6 at the ECHILD environment. -/
theorem spawn_ptrace_wait_failure_generic_error_witness :
    (spawn_ptrace ⟨[]⟩ envWaitFail).result =
        .error (.newOther "Child state not correct") ∧
      ∀ err, (spawn_ptrace ⟨[]⟩ envWaitFail).result = .error err →
        err.rawOsError = none :=
  spawn_ptrace_wait_failure_generic_error ⟨[]⟩ envWaitFail ⟨7⟩ (.Sys 10) rfl rfl

/-- C7: on successful process creation the recorded actions are exactly
one wait, targeted at Some of the spawned child's pid (its u32 id cast to
i32) with flags None; the pid is used for nothing else. -/
theorem spawn_ptrace_wait_targets_child_pid (cmd : Command) (env : Env)
    (c : Child) (hs : (attachTraceme cmd).spawn env = .ok c) :
    (spawn_ptrace cmd env).events =
      [Event.waitCall (some (i32OfU32 c.id)) none] := by
  rw [spawn_ptrace_eq, hs]
  dsimp only
  cases isTrapStop (env.waitpid (some (i32OfU32 c.id)) none) <;> rfl

/-- Witness for C7 at the benign environment. -/
theorem spawn_ptrace_wait_targets_child_pid_witness :
    (spawn_ptrace ⟨[]⟩ envTrapAll).events =
      [Event.waitCall (some (i32OfU32 (Child.mk 7).id)) none] :=
  spawn_ptrace_wait_targets_child_pid ⟨[]⟩ envTrapAll ⟨7⟩ rfl

/-- C8: when process creation succeeded but the call rejects (returns an
error), the only action ever performed on the child is the single status
wait: no kill, no signal, no reap is recorded. -/
theorem spawn_ptrace_no_cleanup_on_reject (cmd : Command) (env : Env)
    (c : Child) (hs : (attachTraceme cmd).spawn env = .ok c)
    (hrej : ∀ ch : Child, (spawn_ptrace cmd env).result ≠ .ok ch) :
    (spawn_ptrace cmd env).events =
        [Event.waitCall (some (i32OfU32 c.id)) none] ∧
      ∀ ev ∈ (spawn_ptrace cmd env).events,
        (∀ p sig, ev ≠ Event.kill p sig) ∧ ∀ p, ev ≠ Event.reap p := by
  have hev : (spawn_ptrace cmd env).events =
      [Event.waitCall (some (i32OfU32 c.id)) none] := by
    rw [spawn_ptrace_eq, hs]
    dsimp only
    cases isTrapStop (env.waitpid (some (i32OfU32 c.id)) none) <;> rfl
  refine ⟨hev, ?_⟩
  rw [hev]
  intro ev hmem
  simp at hmem
  subst hmem
  exact ⟨fun p sig h => Event.noConfusion h, fun p h => Event.noConfusion h⟩

/-- Witness for C8 at the ECHILD environment, where the call rejects. -/
theorem spawn_ptrace_no_cleanup_on_reject_witness :
    (spawn_ptrace ⟨[]⟩ envWaitFail).events =
        [Event.waitCall (some (i32OfU32 (Child.mk 7).id)) none] ∧
      ∀ ev ∈ (spawn_ptrace ⟨[]⟩ envWaitFail).events,
        (∀ p sig, ev ≠ Event.kill p sig) ∧ ∀ p, ev ≠ Event.reap p :=
  spawn_ptrace_no_cleanup_on_reject ⟨[]⟩ envWaitFail ⟨7⟩ rfl
    (fun ch h => Except.noConfusion h)

/-- C9 counterexample: the launch specification is mutably borrowed, not
consumed: it remains usable after a call, and a second call on it leaves
two traceme hooks attached, so hooks do accumulate across repeated calls
on the same specification. -/
theorem spawn_ptrace_hooks_accumulate_cex :
    ((spawn_ptrace (spawn_ptrace ⟨[]⟩ envTrapAll).cmd envTrapAll).cmd).hooks =
      [Hook.traceme, Hook.traceme] := by
  decide

/-- C9 amended: each call attaches exactly one traceme hook, appended to
whatever hooks the specification already carries; the specification
survives the call with that hook still attached, so repeated calls on the
same specification accumulate hooks one per call. -/
theorem spawn_ptrace_attaches_one_hook_borrowed (cmd : Command) (env : Env) :
    (spawn_ptrace cmd env).cmd.hooks = cmd.hooks ++ [Hook.traceme] := by
  rw [spawn_ptrace_eq]
  cases (attachTraceme cmd).spawn env with
  | error e => rfl
  | ok c =>
    dsimp only
    cases isTrapStop (env.waitpid (some (i32OfU32 c.id)) none) <;> rfl

/-- C10: a failure of the wait primitive and a successful wait reporting
a wrong status yield the identical error value: the same generic
"Child state not correct" error with no OS error code, so the caller
cannot distinguish the two causes. -/
theorem spawn_ptrace_wait_fail_wrong_status_indistinguishable
    (cmd1 cmd2 : Command) (env1 env2 : Env) (c1 c2 : Child)
    (e : NixError) (s : WaitStatus)
    (h1 : (attachTraceme cmd1).spawn env1 = .ok c1)
    (h2 : env1.waitpid (some (i32OfU32 c1.id)) none = .error e)
    (h3 : (attachTraceme cmd2).spawn env2 = .ok c2)
    (h4 : env2.waitpid (some (i32OfU32 c2.id)) none = .ok s)
    (h5 : ∀ p, s ≠ WaitStatus.Stopped p Signal.SIGTRAP) :
    (spawn_ptrace cmd1 env1).result = (spawn_ptrace cmd2 env2).result ∧
      (spawn_ptrace cmd1 env1).result =
        .error (.newOther "Child state not correct") ∧
      ∀ err, (spawn_ptrace cmd1 env1).result = .error err →
        err.rawOsError = none := by
  have hts1 : isTrapStop (env1.waitpid (some (i32OfU32 c1.id)) none) = false := by
    rw [h2]; rfl
  have hts2 : isTrapStop (env2.waitpid (some (i32OfU32 c2.id)) none) = false := by
    rw [h4]
    exact isTrapStop_ok_false s h5
  rw [spawn_ptrace_of_noTrap cmd1 env1 c1 h1 hts1,
    spawn_ptrace_of_noTrap cmd2 env2 c2 h3 hts2]
  refine ⟨rfl, rfl, ?_⟩
  intro err herr
  injection herr with h
  subst h
  rfl

/-- Witness for C10: the ECHILD environment and the child-exited
environment produce the same error value. -/
theorem spawn_ptrace_wait_fail_wrong_status_indistinguishable_witness :
    (spawn_ptrace ⟨[]⟩ envWaitFail).result =
        (spawn_ptrace ⟨[]⟩ envChildExited).result ∧
      (spawn_ptrace ⟨[]⟩ envWaitFail).result =
        .error (.newOther "Child state not correct") ∧
      ∀ err, (spawn_ptrace ⟨[]⟩ envWaitFail).result = .error err →
        err.rawOsError = none :=
  spawn_ptrace_wait_fail_wrong_status_indistinguishable ⟨[]⟩ ⟨[]⟩
    envWaitFail envChildExited ⟨7⟩ ⟨7⟩ (.Sys 10) (.Exited 7 0)
    rfl rfl rfl rfl (fun p h => WaitStatus.noConfusion h)

end SpawnPtrace
